import Mathlib

/-!
Verification of the call-progress-analysis module (`app_cpa.c`).

The module's core is `callProgress`: a loop that waits for frames on a
channel, classifies each audio chunk through a DSP tone detector, debounces
the observed tone state against the previous observation, applies per-class
run-length thresholds, and publishes a single `CPASTATUS` string.

This file shallowly embeds that loop.  The DSP (`ast_dsp_get_tstate` /
`ast_dsp_get_tcount`) and the channel transport (`ast_waitfor` / `ast_read`)
are external collaborators; each loop iteration's interaction with them is
modelled as one input event carrying the wait result, the read result, and
— for a frame — the tone state and run count the DSP would report.
-/

namespace Cpa

/-- DSP tone states, mirroring the `DSP_TONE_STATE_*` constants of
`asterisk/dsp.h` that `ast_dsp_get_tstate` can return.  The integer value
only matters through equality tests and the initial `lastTone = 0`,
which is `DSP_TONE_STATE_SILENCE`. -/
inductive ToneState where
  | silence
  | ringing
  | dialtone
  | talking
  | busy
  | special1
  | special2
  | special3
  | hungup
  deriving DecidableEq, Repr

/-- The frame types the loop distinguishes: `AST_FRAME_VOICE` (carrying a
sample count), `AST_FRAME_NULL`, `AST_FRAME_CNG`, and everything else. -/
inductive FrameType where
  | voice (samples : Int)
  | null
  | cng
  | other
  deriving DecidableEq, Repr

/-- One frame delivered by `ast_read`, together with the tone state and tone
count the DSP reports after `ast_dsp_call_progress` processes it. -/
structure Frame where
  ftype : FrameType
  toneState : ToneState
  tcount : Int
  deriving DecidableEq, Repr

/-- Result of `ast_read`: `NULL` (caller hung up) or a frame. -/
inductive ReadResult where
  | closed
  | frame (f : Frame)
  deriving DecidableEq, Repr

/-- One iteration's input: `ast_waitfor` either fails (returns `-1`, ending
the `while` loop) or returns `r > -1`, after which `ast_read` yields a
read result. -/
inductive WaitResult where
  | err
  | ok (r : Int) (rr : ReadResult)
  deriving DecidableEq, Repr

/-- The mutable locals of `callProgress` that survive across loop
iterations: `iTotalTime`, `lastTone`, `tcount`, `cpaStatus`, `res`. -/
structure CpaState where
  iTotalTime : Int
  lastTone : ToneState
  tcount : Int
  cpaStatus : String
  res : Int
  deriving DecidableEq, Repr

/-- Initial values of the loop locals in `callProgress`. -/
def initState : CpaState :=
  { iTotalTime := 0, lastTone := .silence, tcount := 0, cpaStatus := "", res := 0 }

/-- The per-session parameters fixed before the loop starts. -/
structure Params where
  maxWaitTimeForFrame : Int
  silenceThreshold : Int
  totalAnalysisTime : Int
  deriving DecidableEq, Repr

/-- `THRESH_RING = 8` (fixed in `callProgress`). -/
def THRESH_RING : Int := 8
/-- `THRESH_TALK = 2` (fixed in `callProgress`). -/
def THRESH_TALK : Int := 2
/-- `THRESH_BUSY = 4` (fixed in `callProgress`). -/
def THRESH_BUSY : Int := 4
/-- `THRESH_CONGESTION = 4` (fixed in `callProgress`). -/
def THRESH_CONGESTION : Int := 4
/-- `THRESH_HANGUP = 60` (fixed in `callProgress`). -/
def THRESH_HANGUP : Int := 60

/-- `THRESH_SILENCE = silenceThreshold / 20`, C integer division
(truncation toward zero). -/
def THRESH_SILENCE (p : Params) : Int := Int.tdiv p.silenceThreshold 20

/-- `DEFAULT_SAMPLES_PER_MS` from Asterisk (8000 Hz / 1000). -/
def DEFAULT_SAMPLES_PER_MS : Int := 8

/-- Whether the frame enters the analysis block:
`f->frametype == AST_FRAME_VOICE || AST_FRAME_NULL || AST_FRAME_CNG`. -/
def chunkable : FrameType → Bool
  | .voice _ => true
  | .null => true
  | .cng => true
  | .other => false

/-- `framelength`: for a voice frame, `ast_codec_samples_count(f) /
DEFAULT_SAMPLES_PER_MS`; otherwise `2 * maxWaitTimeForFrame`. -/
def framelengthOf (p : Params) : FrameType → Int
  | .voice samples => Int.tdiv samples DEFAULT_SAMPLES_PER_MS
  | _ => 2 * p.maxWaitTimeForFrame

/-- The `switch (toneState)` body run when `toneState == lastTone`, acting on
the state after `tcount` has been refreshed from `ast_dsp_get_tcount`.
Each matching case copies a label into `cpaStatus`; all but the silence
case also set `res = 1`. -/
def toneSwitch (p : Params) (st : CpaState) (ts : ToneState) (tc : Int) : CpaState :=
  match ts with
  | .ringing =>
      if tc = THRESH_RING then { st with cpaStatus := "Ringing", res := 1 } else st
  | .silence =>
      if tc > THRESH_SILENCE p then { st with cpaStatus := "Silence" } else st
  | .busy =>
      if tc = THRESH_BUSY then { st with cpaStatus := "Busy", res := 1 } else st
  | .talking =>
      if tc = THRESH_TALK then { st with cpaStatus := "Talking", res := 1 } else st
  | .special3 =>
      if tc = THRESH_CONGESTION then { st with cpaStatus := "Congestion", res := 1 } else st
  | .hungup =>
      if tc = THRESH_HANGUP then { st with cpaStatus := "Hungup", res := 1 } else st
  | _ => st

/-- Outcome of one loop iteration: continue looping, or leave the loop
(via `break`, or via the `while` condition failing on a wait error). -/
inductive StepResult where
  | next (st : CpaState)
  | done (st : CpaState)
  deriving DecidableEq, Repr

/-- One iteration of the `while ((res = ast_waitfor(...)) > -1)` loop of
`callProgress`.  A wait error makes the loop condition false with
`res = -1`.  A failed read sets `cpaStatus = "Hungup"`, `res = 1` and
breaks.  A chunkable frame adds its length to `iTotalTime`; exceeding
`totalAnalysisTime` sets `cpaStatus = "Unknown"` and breaks.  A repeated
tone state refreshes `tcount` from the DSP and runs the threshold switch,
breaking when `res == 1` afterwards; a changed tone state resets
`lastTone` and `tcount = 1`.  Non-chunkable frames are dropped. -/
def step (p : Params) (st : CpaState) (w : WaitResult) : StepResult :=
  match w with
  | .err => .done { st with res := -1 }
  | .ok r rr =>
    let st1 := { st with res := r }
    match rr with
    | .closed => .done { st1 with cpaStatus := "Hungup", res := 1 }
    | .frame f =>
      if chunkable f.ftype then
        let st2 := { st1 with iTotalTime := st1.iTotalTime + framelengthOf p f.ftype }
        if st2.iTotalTime ≥ p.totalAnalysisTime then
          .done { st2 with cpaStatus := "Unknown" }
        else
          if f.toneState = st2.lastTone then
            let st3 := toneSwitch p { st2 with tcount := f.tcount } f.toneState f.tcount
            if st3.res = 1 then .done st3 else .next st3
          else
            .next { st2 with lastTone := f.toneState, tcount := 1 }
      else
        .next st1

/-- Run the loop over a list of wait events.  Returns the final state and
whether the loop actually exited (`true`) or merely ran out of supplied
events (`false`; the real loop always receives a next wait result). -/
def runLoop (p : Params) : List WaitResult → CpaState → CpaState × Bool
  | [], st => (st, false)
  | w :: ws, st =>
    match step p st w with
    | .next st' => runLoop p ws st'
    | .done st' => (st', true)

/-- The post-loop publication: `if (!res) strcpy(cpaStatus, "NOTSURE")`,
then `pbx_builtin_setvar_helper(chan, "CPASTATUS", cpaStatus)`. -/
def publish (st : CpaState) : String :=
  if st.res = 0 then "NOTSURE" else st.cpaStatus

/-- The precondition phase of `callProgress` before the loop: switching the
channel to signed-linear read format, and constructing the DSP. -/
inductive Precondition where
  | formatFail
  | dspFail
  | preOk
  deriving DecidableEq, Repr

/-- `callProgress` as a whole: if either precondition fails, `CPASTATUS` is
set to the empty string and the function returns before the loop; otherwise
the loop runs over the supplied events and the post-loop publication
determines `CPASTATUS`. -/
def callProgress (pre : Precondition) (p : Params) (events : List WaitResult) : String :=
  match pre with
  | .formatFail => ""
  | .dspFail => ""
  | .preOk => publish (runLoop p events initState).1

/-- C `atoi` digit-prefix accumulator. -/
def atoiDigits : List Char → Int → Int
  | [], acc => acc
  | c :: cs, acc =>
    if c.isDigit then atoiDigits cs (acc * 10 + (c.toNat - 48 : Int)) else acc

/-- C `atoi`: skip leading whitespace, optional sign, then the longest
digit prefix; anything unparseable yields 0. -/
def atoi (s : String) : Int :=
  match s.toList.dropWhile Char.isWhitespace with
  | '-' :: cs => - atoiDigits cs 0
  | '+' :: cs => atoiDigits cs 0
  | cs => atoiDigits cs 0

/-- Compiled-in default `dfltMaxWaitTimeForFrame = 50`. -/
def dfltMaxWaitTimeForFrame : Int := 50
/-- Compiled-in initializer `dfltSilenceThreshold = 100` (overwritten by
`load_config` from the DSP settings and `cpa.conf`). -/
def dfltSilenceThresholdInit : Int := 100
/-- Compiled-in initializer `dfltTotalAnalysisTime = 1000`. -/
def dfltTotalAnalysisTimeInit : Int := 1000

/-- Argument layering in `callProgress`: `silenceThreshold` starts at the
default and is overwritten by `atoi(argSilenceThreshold)` when the argument
is non-empty (`!ast_strlen_zero`). -/
def effectiveSilenceThreshold (dflt : Int) (arg : String) : Int :=
  if arg = "" then dflt else atoi arg

/-- Argument layering in `callProgress` for `totalAnalysisTime`. -/
def effectiveTotalAnalysisTime (dflt : Int) (arg : String) : Int :=
  if arg = "" then dflt else atoi arg

/-- Parameter construction in `callProgress`: layer the call arguments over
the defaults, then clamp `maxWaitTimeForFrame` to `totalAnalysisTime`. -/
def mkParams (dSil dTot : Int) (argSil argTot : String) : Params :=
  let s := effectiveSilenceThreshold dSil argSil
  let t := effectiveTotalAnalysisTime dTot argTot
  { maxWaitTimeForFrame := if dfltMaxWaitTimeForFrame > t then t else dfltMaxWaitTimeForFrame,
    silenceThreshold := s,
    totalAnalysisTime := t }

/-- ASCII lowercasing of one character, as C `strcasecmp` compares. -/
def lowerChar (c : Char) : Char :=
  if 65 ≤ c.toNat ∧ c.toNat ≤ 90 then Char.ofNat (c.toNat + 32) else c

/-- Case-insensitive string equality, modelling `strcasecmp(a, b) == 0`. -/
def strcaseEq (a b : String) : Bool :=
  a.toList.map lowerChar == b.toList.map lowerChar

/-- One `general`-section variable of `cpa.conf` applied to the pair
(`dfltSilenceThreshold`, `dfltTotalAnalysisTime`): `silence_threshold` and
`total_analysis_time` are read with `atoi` (names compared with
`strcasecmp`); unknown keywords are logged and ignored. -/
def applyConfigVar (st : Int × Int) (v : String × String) : Int × Int :=
  if strcaseEq v.1 ("silence_threshold") then (atoi v.2, st.2)
  else if strcaseEq v.1 ("total_analysis_time") then (st.1, atoi v.2)
  else st

/-- `load_config` over the `general` section: `dfltSilenceThreshold` is
first reset from the DSP settings (`ast_dsp_get_threshold_from_settings`,
passed here as `dspSilence`), then each config variable is applied in
order. -/
def load_config (dspSilence dfltTotal : Int) (vars : List (String × String)) : Int × Int :=
  vars.foldl applyConfigVar (dspSilence, dfltTotal)

/-- The default session parameters: no call arguments, defaults as compiled
(DSP silence default taken as the initializer value 100). -/
def defaultParams : Params :=
  mkParams dfltSilenceThresholdInit dfltTotalAnalysisTimeInit "" ""

/-- Label copied into `cpaStatus` by the verdict-firing switch cases. -/
def toneLabel : ToneState → String
  | .ringing => "Ringing"
  | .busy => "Busy"
  | .talking => "Talking"
  | .special3 => "Congestion"
  | .hungup => "Hungup"
  | _ => ""

/-- Threshold compared with `tcount` in each verdict-firing switch case. -/
def threshOf : ToneState → Int
  | .ringing => THRESH_RING
  | .busy => THRESH_BUSY
  | .talking => THRESH_TALK
  | .special3 => THRESH_CONGESTION
  | .hungup => THRESH_HANGUP
  | _ => 0

/-- The five tone states whose switch cases can terminate the loop with a
verdict: ringing, busy, congestion (SPECIAL3), talking, hangup tone. -/
def verdictTone (ts : ToneState) : Prop :=
  ts = .ringing ∨ ts = .busy ∨ ts = .special3 ∨ ts = .talking ∨ ts = .hungup

instance : DecidablePred verdictTone := by
  intro ts
  unfold verdictTone
  infer_instance

/-- A 20 ms voice frame (160 samples at 8 kHz) carrying the given DSP
observation, delivered after a successful wait returning `r = 40`. -/
def voiceEvent (ts : ToneState) (tc : Int) : WaitResult :=
  .ok 40 (.frame { ftype := .voice 160, toneState := ts, tcount := tc })

/-- Seven ringing chunks (run 1..7), one silence chunk, then a fresh
ringing run 1..8 — the scenario of claim C4. -/
def ringBrokenEvents : List WaitResult :=
  [voiceEvent .ringing 1, voiceEvent .ringing 2, voiceEvent .ringing 3,
   voiceEvent .ringing 4, voiceEvent .ringing 5, voiceEvent .ringing 6,
   voiceEvent .ringing 7, voiceEvent .silence 1,
   voiceEvent .ringing 1, voiceEvent .ringing 2, voiceEvent .ringing 3,
   voiceEvent .ringing 4, voiceEvent .ringing 5, voiceEvent .ringing 6,
   voiceEvent .ringing 7, voiceEvent .ringing 8]

/-- The same scenario stopped one chunk early: the fresh ringing run has
only reached 7. -/
def ringBrokenPart : List WaitResult :=
  [voiceEvent .ringing 1, voiceEvent .ringing 2, voiceEvent .ringing 3,
   voiceEvent .ringing 4, voiceEvent .ringing 5, voiceEvent .ringing 6,
   voiceEvent .ringing 7, voiceEvent .silence 1,
   voiceEvent .ringing 1, voiceEvent .ringing 2, voiceEvent .ringing 3,
   voiceEvent .ringing 4, voiceEvent .ringing 5, voiceEvent .ringing 6,
   voiceEvent .ringing 7]

/-- A silence run of length 7, past the default silence threshold of 5. -/
def silenceRunEvents : List WaitResult :=
  [voiceEvent .silence 1, voiceEvent .silence 2, voiceEvent .silence 3,
   voiceEvent .silence 4, voiceEvent .silence 5, voiceEvent .silence 6,
   voiceEvent .silence 7]

/-- The silence run followed by a full ringing run of 8. -/
def silenceThenRingEvents : List WaitResult :=
  silenceRunEvents ++
  [voiceEvent .ringing 1, voiceEvent .ringing 2, voiceEvent .ringing 3,
   voiceEvent .ringing 4, voiceEvent .ringing 5, voiceEvent .ringing 6,
   voiceEvent .ringing 7, voiceEvent .ringing 8]

/-! ### Step-shape lemmas

These describe one loop iteration in each of the mutually exclusive cases
of `step`'s control flow. -/

theorem step_err (p : Params) (st : CpaState) :
    step p st .err = .done { st with res := -1 } := rfl

theorem step_closed (p : Params) (st : CpaState) (r : Int) :
    step p st (.ok r .closed) = .done { st with cpaStatus := "Hungup", res := 1 } := rfl

theorem step_other (p : Params) (st : CpaState) (r : Int) (ts : ToneState) (tc : Int) :
    step p st (.ok r (.frame { ftype := .other, toneState := ts, tcount := tc })) =
      .next { st with res := r } := rfl

theorem step_budget (p : Params) (st : CpaState) (r : Int) (f : Frame)
    (hch : chunkable f.ftype = true)
    (hb : st.iTotalTime + framelengthOf p f.ftype ≥ p.totalAnalysisTime) :
    step p st (.ok r (.frame f)) =
      .done { st with
              res := r
              iTotalTime := st.iTotalTime + framelengthOf p f.ftype
              cpaStatus := "Unknown" } := by
  simp [step, hch, hb]

theorem step_change (p : Params) (st : CpaState) (r : Int) (f : Frame)
    (hch : chunkable f.ftype = true)
    (hb : st.iTotalTime + framelengthOf p f.ftype < p.totalAnalysisTime)
    (hne : ¬ f.toneState = st.lastTone) :
    step p st (.ok r (.frame f)) =
      .next { st with
              res := r
              iTotalTime := st.iTotalTime + framelengthOf p f.ftype
              lastTone := f.toneState
              tcount := 1 } := by
  simp [step, hch, hne, not_le.mpr hb]

/-- The state on which the repeated-tone switch acts: `res` refreshed from
the wait result, the frame length added to `iTotalTime`, and `tcount`
refreshed from `ast_dsp_get_tcount`. -/
def repeatBase (p : Params) (st : CpaState) (r : Int) (f : Frame) : CpaState :=
  { st with
    res := r
    iTotalTime := st.iTotalTime + framelengthOf p f.ftype
    tcount := f.tcount }

theorem step_repeat (p : Params) (st : CpaState) (r : Int) (f : Frame)
    (hch : chunkable f.ftype = true)
    (hb : st.iTotalTime + framelengthOf p f.ftype < p.totalAnalysisTime)
    (hrep : f.toneState = st.lastTone) :
    step p st (.ok r (.frame f)) =
      (if (toneSwitch p (repeatBase p st r f) f.toneState f.tcount).res = 1
       then .done (toneSwitch p (repeatBase p st r f) f.toneState f.tcount)
       else .next (toneSwitch p (repeatBase p st r f) f.toneState f.tcount)) := by
  simp [step, repeatBase, hch, hrep, not_le.mpr hb]

theorem toneSwitch_fires (p : Params) (st : CpaState) (c : ToneState)
    (hc : verdictTone c) (tc : Int) (ht : tc = threshOf c) :
    toneSwitch p st c tc = { st with cpaStatus := toneLabel c, res := 1 } := by
  rcases hc with h | h | h | h | h <;> subst h <;>
    simp only [threshOf] at ht <;> simp [toneSwitch, ht, toneLabel]

theorem toneSwitch_skips (p : Params) (st : CpaState) (c : ToneState)
    (hc : verdictTone c) (tc : Int) (ht : ¬ tc = threshOf c) :
    toneSwitch p st c tc = st := by
  rcases hc with h | h | h | h | h <;> subst h <;>
    simp only [threshOf] at ht <;> simp [toneSwitch, ht]

theorem toneSwitch_silence_records (p : Params) (st : CpaState) (tc : Int)
    (ht : THRESH_SILENCE p < tc) :
    toneSwitch p st .silence tc = { st with cpaStatus := "Silence" } := by
  simp [toneSwitch, ht]

theorem toneSwitch_silence_res (p : Params) (st : CpaState) (tc : Int) :
    (toneSwitch p st .silence tc).res = st.res := by
  by_cases ht : THRESH_SILENCE p < tc <;> simp [toneSwitch, ht]

/-! ### Claim theorems -/

/-- Claim C1: while the session is still sampling and the observed tone
class repeats the previous chunk's class, for each of the five verdict
classes (ringing, busy, congestion, talking, hangup tone) the verdict is
emitted — the loop breaks with `cpaStatus` set to the class label — exactly
when the DSP run count equals the class threshold: never while below it,
and never again once past it. -/
theorem C1_verdict_fires_iff_exact_threshold
    (p : Params) (st : CpaState) (r : Int) (f : Frame) (c : ToneState)
    (hc : verdictTone c) (hcls : f.toneState = c) (hrep : st.lastTone = c)
    (hch : chunkable f.ftype = true)
    (hb : st.iTotalTime + framelengthOf p f.ftype < p.totalAnalysisTime)
    (hstat : st.cpaStatus ≠ toneLabel c) :
    (∃ st', step p st (.ok r (.frame f)) = .done st' ∧ st'.cpaStatus = toneLabel c)
      ↔ f.tcount = threshOf c := by
  subst hcls
  rw [step_repeat p st r f hch hb hrep.symm]
  by_cases ht : f.tcount = threshOf f.toneState
  · rw [toneSwitch_fires p (repeatBase p st r f) f.toneState hc f.tcount ht, if_pos rfl]
    exact iff_of_true ⟨_, rfl, rfl⟩ ht
  · rw [toneSwitch_skips p (repeatBase p st r f) f.toneState hc f.tcount ht]
    refine iff_of_false ?_ ht
    rintro ⟨st', hd, hl⟩
    by_cases hr1 : r = 1
    · rw [if_pos (show (repeatBase p st r f).res = 1 from hr1)] at hd
      injection hd with h
      subst h
      exact hstat hl
    · rw [if_neg (show ¬ (repeatBase p st r f).res = 1 from hr1)] at hd
      exact StepResult.noConfusion hd

/-- The repeated-ringing observation used to witness claim C1. -/
def c1Frame : Frame := { ftype := .voice 160, toneState := .ringing, tcount := 8 }

/-- A mid-session state in a ringing run, used to witness claim C1. -/
def c1State : CpaState :=
  { iTotalTime := 100, lastTone := .ringing, tcount := 7, cpaStatus := "", res := 40 }

/-- Witness for C1 at a concrete repeated-ringing step. -/
theorem C1_verdict_fires_iff_exact_threshold_witness :
    (∃ st', step defaultParams c1State (.ok 40 (.frame c1Frame)) = .done st'
        ∧ st'.cpaStatus = toneLabel .ringing)
      ↔ c1Frame.tcount = threshOf .ringing :=
  C1_verdict_fires_iff_exact_threshold defaultParams c1State 40 c1Frame .ringing
    (by decide) rfl rfl (by decide) (by decide) (by decide)

/-- Claim C2: the chunk's duration is added to `iTotalTime` before any
tone-threshold evaluation; once the sum reaches `totalAnalysisTime` the
loop breaks at once with status `"Unknown"` and publishes `"Unknown"`,
whatever tone observation the chunk carried — including one whose run
count meets its own threshold. -/
theorem C2_budget_check_precedes_thresholds
    (p : Params) (st : CpaState) (r : Int) (f : Frame)
    (hch : chunkable f.ftype = true)
    (hb : st.iTotalTime + framelengthOf p f.ftype ≥ p.totalAnalysisTime)
    (hr : r ≠ 0) :
    ∃ st', step p st (.ok r (.frame f)) = .done st'
      ∧ st'.cpaStatus = "Unknown"
      ∧ st'.iTotalTime = st.iTotalTime + framelengthOf p f.ftype
      ∧ publish st' = "Unknown" := by
  refine ⟨_, step_budget p st r f hch hb, rfl, rfl, ?_⟩
  simp [publish, hr]

/-- A state 985 ms into a 1000 ms budget, used to witness claim C2. -/
def c2State : CpaState :=
  { iTotalTime := 985, lastTone := .ringing, tcount := 7, cpaStatus := "", res := 40 }

/-- Witness for C2: the chunk's ringing run count equals the ringing
threshold, yet the exhausted budget forces `"Unknown"`. -/
theorem C2_budget_check_precedes_thresholds_witness :
    ∃ st', step defaultParams c2State (.ok 40 (.frame c1Frame)) = .done st'
      ∧ st'.cpaStatus = "Unknown"
      ∧ st'.iTotalTime = c2State.iTotalTime + framelengthOf defaultParams c1Frame.ftype
      ∧ publish st' = "Unknown" :=
  C2_budget_check_precedes_thresholds defaultParams c2State 40 c1Frame
    (by decide) (by decide) (by decide)

/-- Claim C3: a silence observation never by itself ends the loop: under a
live budget and a wait result other than the `res == 1` break quirk, a
silence chunk always continues the loop whatever its run count, and a run
count past the silence threshold only records the tentative `"Silence"`
label; the closed conjuncts show a 7-chunk silence run leaving the loop
running with status `"Silence"`, later overwritten by a ringing verdict. -/
theorem C3_silence_never_terminates :
    (∀ (p : Params) (st : CpaState) (r : Int) (f : Frame),
        chunkable f.ftype = true →
        f.toneState = .silence →
        st.iTotalTime + framelengthOf p f.ftype < p.totalAnalysisTime →
        r ≠ 1 →
        ∃ st', step p st (.ok r (.frame f)) = .next st'
          ∧ (st.lastTone = .silence → THRESH_SILENCE p < f.tcount →
              st'.cpaStatus = "Silence")) ∧
    (runLoop defaultParams silenceRunEvents initState).2 = false ∧
    (runLoop defaultParams silenceRunEvents initState).1.cpaStatus = "Silence" ∧
    callProgress .preOk defaultParams silenceThenRingEvents = "Ringing" := by
  refine ⟨?_, by decide, by decide, by decide⟩
  intro p st r f hch hsil hb hr
  by_cases hrep : f.toneState = st.lastTone
  · rw [step_repeat p st r f hch hb hrep, hsil]
    rw [if_neg (show ¬ (toneSwitch p (repeatBase p st r f) .silence f.tcount).res = 1 by
      rw [toneSwitch_silence_res]
      exact hr)]
    refine ⟨_, rfl, fun _ htc => ?_⟩
    rw [toneSwitch_silence_records p (repeatBase p st r f) f.tcount htc]
  · rw [step_change p st r f hch hb hrep]
    exact ⟨_, rfl, fun hlast _ => absurd (hsil.trans hlast.symm) hrep⟩

/-- The above-threshold silence observation used to witness claim C3. -/
def c3Frame : Frame := { ftype := .voice 160, toneState := .silence, tcount := 6 }

/-- A mid-session state in a silence run, used to witness claim C3. -/
def c3State : CpaState :=
  { iTotalTime := 100, lastTone := .silence, tcount := 5, cpaStatus := "", res := 40 }

/-- Witness for C3: a silence chunk with run count 6 > threshold 5
continues the loop and records the tentative silence label. -/
theorem C3_silence_never_terminates_witness :
    ∃ st', step defaultParams c3State (.ok 40 (.frame c3Frame)) = .next st'
      ∧ (c3State.lastTone = .silence → THRESH_SILENCE defaultParams < c3Frame.tcount →
          st'.cpaStatus = "Silence") :=
  C3_silence_never_terminates.1 defaultParams c3State 40 c3Frame
    (by decide) rfl (by decide) (by decide)

/-- Claim C4: a tone class differing from the previous one resets
`lastTone` and `tcount := 1` with no threshold evaluation and no status
change; the closed conjuncts replay 7 ringing chunks (threshold 8), one
silence chunk, then a fresh ringing run — 7 more ringing chunks leave the
loop still running with no verdict, and only the 8th chunk of the fresh
run fires `"Ringing"`. -/
theorem C4_class_change_resets_run :
    (∀ (p : Params) (st : CpaState) (r : Int) (f : Frame),
        chunkable f.ftype = true →
        st.iTotalTime + framelengthOf p f.ftype < p.totalAnalysisTime →
        ¬ f.toneState = st.lastTone →
        step p st (.ok r (.frame f)) =
          .next { st with
                  res := r
                  iTotalTime := st.iTotalTime + framelengthOf p f.ftype
                  lastTone := f.toneState
                  tcount := 1 }) ∧
    runLoop defaultParams ringBrokenPart initState =
      ({ iTotalTime := 300, lastTone := .ringing, tcount := 7, cpaStatus := "", res := 40 },
        false) ∧
    runLoop defaultParams ringBrokenEvents initState =
      ({ iTotalTime := 320, lastTone := .ringing, tcount := 8, cpaStatus := "Ringing", res := 1 },
        true) ∧
    callProgress .preOk defaultParams ringBrokenEvents = "Ringing" :=
  ⟨step_change, by decide, by decide, by decide⟩

/-- The class-changing ringing observation used to witness claim C4. -/
def c4Frame : Frame := { ftype := .voice 160, toneState := .ringing, tcount := 5 }

/-- Witness for C4: a ringing chunk after silence resets the run to 1. -/
theorem C4_class_change_resets_run_witness :
    step defaultParams initState (.ok 40 (.frame c4Frame)) =
      .next { initState with
              res := 40
              iTotalTime := initState.iTotalTime + framelengthOf defaultParams c4Frame.ftype
              lastTone := c4Frame.toneState
              tcount := 1 } :=
  C4_class_change_resets_run.1 defaultParams initState 40 c4Frame
    (by decide) (by decide) (by decide)

/-- Claim C5: a failed read (source closed) at any point while sampling —
including as the very first event, with zero elapsed time — breaks the
loop with `cpaStatus = "Hungup"` and `res = 1`, so `"Hungup"` is
published; elapsed time is untouched. -/
theorem C5_source_closed_hangup :
    (∀ (p : Params) (st : CpaState) (r : Int),
        step p st (.ok r .closed) = .done { st with cpaStatus := "Hungup", res := 1 } ∧
        publish { st with cpaStatus := "Hungup", res := 1 } = "Hungup" ∧
        ({ st with cpaStatus := "Hungup", res := 1 } : CpaState).iTotalTime = st.iTotalTime) ∧
    runLoop defaultParams [.ok 50 .closed] initState =
      ({ iTotalTime := 0, lastTone := .silence, tcount := 0, cpaStatus := "Hungup", res := 1 },
        true) ∧
    callProgress .preOk defaultParams [.ok 50 .closed] = "Hungup" := by
  refine ⟨fun p st r => ⟨step_closed p st r, ?_, rfl⟩, by decide, by decide⟩
  simp [publish]

/-- Claim C6 counterexample: a fatal wait failure as the first event exits
the loop with `res = -1`, so the `!res` fallback never fires and the
published status is the empty string — not `"NOTSURE"` and not
`"Unknown"`. -/
theorem C6_wait_error_empty_status_cex :
    callProgress .preOk defaultParams [.err] = "" ∧
    ("" : String) ≠ "NOTSURE" ∧ ("" : String) ≠ "Unknown" :=
  ⟨by decide, by decide, by decide⟩

/-- Claim C6 amended: a fatal wait failure aborts the loop with `res = -1`
and the session publishes exactly the status accumulated so far — the
empty string if nothing was recorded, or the tentative `"Silence"` label —
because the `NOTSURE` fallback only fires when `res` is 0. -/
theorem C6_wait_error_publishes_accumulated :
    (∀ (p : Params) (st : CpaState),
        step p st .err = .done { st with res := -1 } ∧
        publish { st with res := -1 } = st.cpaStatus) ∧
    callProgress .preOk defaultParams (silenceRunEvents ++ [.err]) = "Silence" := by
  refine ⟨fun p st => ⟨step_err p st, ?_⟩, by decide⟩
  simp [publish]

/-- Claim C7 counterexample: with both preconditions satisfied, a session
whose first wait fails still publishes the empty string, so the empty
status is not exclusive to precondition failure. -/
theorem C7_empty_status_without_precondition_cex :
    callProgress .preOk defaultParams [.err] = "" ∧
    Precondition.preOk ≠ .formatFail ∧ Precondition.preOk ≠ .dspFail :=
  ⟨by decide, by decide, by decide⟩

/-- Claim C7 amended: whenever the format switch or the DSP construction
fails, analysis never starts and `CPASTATUS` is the empty string; the
converse direction fails, as the empty string can also be published after
analysis starts. -/
theorem C7_precondition_failure_empty (pre : Precondition) (p : Params)
    (events : List WaitResult) (h : pre ≠ .preOk) :
    callProgress pre p events = "" := by
  cases pre with
  | formatFail => rfl
  | dspFail => rfl
  | preOk => exact absurd rfl h

/-- Witness for the amended C7 at the failed-format precondition. -/
theorem C7_precondition_failure_empty_witness :
    callProgress .formatFail defaultParams [] = "" :=
  C7_precondition_failure_empty .formatFail defaultParams [] (by decide)

/-- Claim C8 counterexample: a negative call-time silence threshold is
accepted verbatim (no `InvalidConfig`, no failure path), an unparseable
one becomes 0, a negative config value is stored, and the negative value
flows into the session parameters and the derived silence chunk
threshold. -/
theorem C8_nonpositive_threshold_accepted_cex :
    effectiveSilenceThreshold 100 ("-5") = -5 ∧ ¬ (0 < (-5 : Int)) ∧
    effectiveSilenceThreshold 100 ("abc") = 0 ∧
    load_config 100 1000 [("silence_threshold", "-5")] = (-5, 1000) ∧
    (mkParams 100 1000 ("-5") ("")).silenceThreshold = -5 ∧
    THRESH_SILENCE (mkParams 100 1000 ("-5") ("")) = 0 :=
  ⟨by decide, by decide, by decide, by decide, by decide, by decide⟩

/-- Claim C8 amended: threshold parameters are parsed with `atoi` and used
as-is: any supplied value — positive, non-positive, or unparseable (which
`atoi` maps to 0) — becomes the effective threshold, and construction of
the session's thresholds never fails. -/
theorem C8_threshold_accepted_unvalidated (d : Int) (a : String) (h : a ≠ ("")) :
    effectiveSilenceThreshold d a = atoi a ∧
    effectiveTotalAnalysisTime d a = atoi a := by
  constructor <;> simp [effectiveSilenceThreshold, effectiveTotalAnalysisTime, h]

/-- Witness for the amended C8 at the negative argument. -/
theorem C8_threshold_accepted_unvalidated_witness :
    effectiveSilenceThreshold 100 ("-5") = atoi ("-5") ∧
    effectiveTotalAnalysisTime 100 ("-5") = atoi ("-5") :=
  C8_threshold_accepted_unvalidated 100 ("-5") (by decide)

/-- Claim C9: the effective silence threshold and total analysis time are
layered override > config > default: a `general` config entry overwrites
the compiled default, a non-empty call argument overwrites the config
value, and an empty argument leaves the lower-priority value in effect;
concretely, default 100 with config 150 and no override yields 150, and an
override of 50 yields 50. -/
theorem C9_threshold_layering :
    (∀ (d : Int) (v : String),
        load_config d dfltTotalAnalysisTimeInit [("silence_threshold", v)] =
          (atoi v, dfltTotalAnalysisTimeInit)) ∧
    (∀ (d : Int) (v : String),
        load_config d dfltTotalAnalysisTimeInit [("total_analysis_time", v)] =
          (d, atoi v)) ∧
    (∀ (d : Int) (a : String), a ≠ ("") → effectiveSilenceThreshold d a = atoi a) ∧
    (∀ d : Int, effectiveSilenceThreshold d ("") = d) ∧
    (∀ (d : Int) (a : String), a ≠ ("") → effectiveTotalAnalysisTime d a = atoi a) ∧
    (∀ d : Int, effectiveTotalAnalysisTime d ("") = d) ∧
    effectiveSilenceThreshold (load_config 100 1000 [("silence_threshold", "150")]).1 ("") = 150 ∧
    effectiveSilenceThreshold (load_config 100 1000 [("silence_threshold", "150")]).1 ("50") = 50 := by
  refine ⟨fun d v => rfl, fun d v => rfl, ?_, ?_, ?_, ?_, by decide, by decide⟩
  · intro d a h
    simp [effectiveSilenceThreshold, h]
  · intro d
    simp [effectiveSilenceThreshold]
  · intro d a h
    simp [effectiveTotalAnalysisTime, h]
  · intro d
    simp [effectiveTotalAnalysisTime]

/-- Witness for C9: a non-empty override argument wins over the layered
default. -/
theorem C9_threshold_layering_witness :
    effectiveSilenceThreshold 150 ("50") = atoi ("50") :=
  C9_threshold_layering.2.2.1 150 ("50") (by decide)

/-- Claim C10: a frame whose type is not voice, null, or comfort-noise
leaves the session state unchanged — elapsed time, last tone, run count,
and status keep their values, no verdict can fire — and the loop simply
continues. -/
theorem C10_other_frame_discarded (p : Params) (st : CpaState) (r : Int)
    (ts : ToneState) (tc : Int) :
    step p st (.ok r (.frame { ftype := .other, toneState := ts, tcount := tc })) =
      .next { st with res := r } ∧
    ({ st with res := r } : CpaState).iTotalTime = st.iTotalTime ∧
    ({ st with res := r } : CpaState).lastTone = st.lastTone ∧
    ({ st with res := r } : CpaState).tcount = st.tcount ∧
    ({ st with res := r } : CpaState).cpaStatus = st.cpaStatus :=
  ⟨step_other p st r ts tc, rfl, rfl, rfl, rfl⟩

end Cpa
